import Mathlib

/-!
Shallow embedding of `src/spotify.py` (class `SpotifyAPI`).

The Python class holds OAuth2 client credentials, obtains a bearer token at
construction time via a POST to the authorization endpoint, and exposes two
query operations (`genres`, `search`) that issue HTTP GETs against the API
root.  External HTTP traffic is modelled by oracle functions supplied to each
operation (`envA` for the authorization POST, `envG` for API GETs); the wall
clock (`time()`) is an explicit rational parameter `now`.  Every operation
returns, besides its result, the state of the object afterwards (Python
mutates `self` in place) and the ordered trace of HTTP calls it issued, so
that claims about "performs no network call" or "exactly one renewal call
before the GET" are statable.  Python exceptions become `Except` errors.
-/

/-- A Python value as far as the constructor's `type(...) != str` check is
concerned: `None` (the default), a string, or some other object (an int). -/
inductive PyVal where
  | none
  | str (s : String)
  | int (n : Int)
deriving DecidableEq

/-- `type(v) == str` -/
def PyVal.isStr : PyVal → Bool
  | .str _ => true
  | _ => false

/-- Python `str()` / f-string interpolation of the value (`str(None) = "None"`). -/
def PyVal.pyStr : PyVal → String
  | .none => "None"
  | .str s => s
  | .int n => toString n

/-- Minimal JSON values, as returned by `response.json()`. -/
inductive Json where
  | null
  | bool (b : Bool)
  | num (n : Int)
  | str (s : String)
  | arr (xs : List Json)
  | obj (fields : List (String × Json))

/-- Python `d[key]` / `key in d` lookup on a JSON object (first binding wins,
as in a dict with unique keys); `none` when the key is absent or the value is
not an object. -/
def jsonLookup (key : String) : Json → Option Json
  | Json.obj fields => List.lookup key fields
  | _ => Option.none

/-- An outbound HTTP request: url, form/query parameters, headers. -/
structure HttpRequest where
  url : String
  data : List (String × String)
  headers : List (String × String)
deriving DecidableEq

/-- One entry of the HTTP call trace: a POST (authorization endpoint) or a
GET (API endpoint). -/
inductive Call where
  | post (req : HttpRequest)
  | get (req : HttpRequest)
deriving DecidableEq

/-- What the transport returns for a GET: a network-level failure (the
`requests` exception propagates) or a response with a status code and a JSON
body (`r.json()`; the code never looks at the status). -/
inductive GetResult where
  | netError (msg : String)
  | response (status : Nat) (body : Json)

/-- Python exceptions that the embedded code can raise. -/
inductive PyError where
  | typeError (msg : String)
  | attributeError (attr : String)
  | keyError (key : String)
  | netError (msg : String)
deriving DecidableEq

/-- The mutable state of a `SpotifyAPI` object.  Attributes that the Python
code only assigns on some paths (`start`, `api_headers`, `access_token`) are
`Option`s; reading them while `none` is an `AttributeError`. -/
structure SpotifyAPI where
  urls_api : String
  urls_auth : String
  client_id : PyVal
  client_secret : PyVal
  start : Option Rat
  api_headers : Option (List (String × String))
  access_token : Option Int
deriving DecidableEq

/-- `self.urls["api"]` constant. -/
def apiRoot : String := "https://api.spotify.com/v1/"

/-- `self.urls["auth"]` constant. -/
def authUrl : String := "https://accounts.spotify.com/api/token"

/-- Base64 alphabet character for a 6-bit value. -/
def b64Char (n : Nat) : Char :=
  List.getD "ABCDEFGHIJKLMNOPQRSTUVWXYZabcdefghijklmnopqrstuvwxyz0123456789+/".data n 'A'

/-- `base64.b64encode` over a byte list (RFC 4648, with padding). -/
def b64encode : List Nat → String
  | [] => ""
  | [a] =>
      String.mk [b64Char (a / 4), b64Char (a % 4 * 16)] ++ "=="
  | [a, b] =>
      String.mk [b64Char (a / 4), b64Char (a % 4 * 16 + b / 16), b64Char (b % 16 * 4)] ++ "="
  | a :: b :: c :: rest =>
      String.mk [b64Char (a / 4), b64Char (a % 4 * 16 + b / 16),
                 b64Char (b % 16 * 4 + c / 64), b64Char (c % 64)] ++ b64encode rest

/-- UTF-8 bytes of one code point (Python `str.encode()`). -/
def utf8Bytes (c : Nat) : List Nat :=
  if c < 0x80 then [c]
  else if c < 0x800 then [0xC0 + c / 64, 0x80 + c % 64]
  else if c < 0x10000 then [0xE0 + c / 4096, 0x80 + c / 64 % 64, 0x80 + c % 64]
  else [0xF0 + c / 262144, 0x80 + c / 4096 % 64, 0x80 + c / 64 % 64, 0x80 + c % 64]

/-- Python `s.encode()`: UTF-8 bytes of a string. -/
def strBytes (s : String) : List Nat :=
  (s.data.map fun ch => utf8Bytes ch.toNat).flatten

/-- Outcome of running one method: the returned value (or the exception that
propagated), the object's state when the method left (Python mutates `self`
even when it later raises), and the HTTP calls issued, in order. -/
structure StepOut (α : Type) where
  result : Except PyError α
  state : SpotifyAPI
  calls : List Call

/-- The POST request that `__init__` sends to the authorization endpoint for
the given credential pair. -/
def authReqP (client_id client_secret : PyVal) : HttpRequest :=
  { url := authUrl
    data := [("grant_type", "client_credentials")]
    headers := [("Authorization",
      "Basic " ++ b64encode (strBytes (client_id.pyStr ++ ":" ++ client_secret.pyStr)))] }

/-- `SpotifyAPI.__init__` run on an existing object `self` (the code calls it
both for fresh construction and, from `update_token`, for renewal — in the
latter case only the attributes that `__init__` assigns change).
Mirrors src/spotify.py lines 33-74. -/
def SpotifyAPI.init (self : SpotifyAPI) (envA : HttpRequest → Json) (now : Rat)
    (client_id client_secret : PyVal) : StepOut Unit :=
  -- `if type(client_id) != str and type(client_secret) != str: raise TypeError(...)`
  if !client_id.isStr && !client_secret.isStr then
    ⟨Except.error (PyError.typeError "Both client_id and client_secret must be strings"),
     self, []⟩
  else
    -- `self.urls = {...}; self.client_id = ...; self.client_secret = ...`
    let s1 : SpotifyAPI :=
      { self with urls_api := apiRoot, urls_auth := authUrl,
                  client_id := client_id, client_secret := client_secret }
    -- `credentials = f"{client_id}:{client_secret}"`, base64-encoded into the
    -- Basic authorization header of the POST (see `authReqP`)
    let req : HttpRequest := authReqP client_id client_secret
    let response := envA req
    match jsonLookup "access_token" response with
    | some (Json.str tok) =>
        -- success: `self.start = time()` and the reusable header set
        ⟨Except.ok (),
         { s1 with start := some now,
                   api_headers := some
                     [("Accept", "application/json"),
                      ("Content-Type", "application/json"),
                      ("Authorization", "Bearer " ++ tok)] },
         [Call.post req]⟩
    | some _ =>
        -- `"Bearer " + access_token` with a non-string token raises TypeError
        ⟨Except.error (PyError.typeError "can only concatenate str (not other) to str"),
         s1, [Call.post req]⟩
    | Option.none =>
        -- failure branch: prints `response["error"]` (KeyError if absent),
        -- then `self.access_token = 0`; `start` and `api_headers` untouched
        match jsonLookup "error" response with
        | some _ => ⟨Except.ok (), { s1 with access_token := some 0 }, [Call.post req]⟩
        | Option.none => ⟨Except.error (PyError.keyError "error"), s1, [Call.post req]⟩

/-- A fresh Python object before `__init__` runs: no attributes set. -/
def SpotifyAPI.blank : SpotifyAPI :=
  { urls_api := "", urls_auth := "", client_id := PyVal.none, client_secret := PyVal.none,
    start := Option.none, api_headers := Option.none, access_token := Option.none }

/-- `SpotifyAPI(client_id, client_secret)`: fresh construction. -/
def SpotifyAPI.new (envA : HttpRequest → Json) (now : Rat)
    (client_id client_secret : PyVal) : StepOut Unit :=
  SpotifyAPI.blank.init envA now client_id client_secret

/-- `SpotifyAPI.update_token` (src/spotify.py lines 100-104):
`elapsed = (time() - self.start) / 3600; if elapsed > 1: self.__init__(...)`. -/
def SpotifyAPI.update_token (self : SpotifyAPI) (envA : HttpRequest → Json)
    (now : Rat) : StepOut Unit :=
  match self.start with
  | Option.none => ⟨Except.error (PyError.attributeError "start"), self, []⟩
  | some st =>
      if (now - st) / 3600 > 1 then
        self.init envA now self.client_id self.client_secret
      else
        ⟨Except.ok (), self, []⟩

/-- The GET request `genres` sends: api root + genre-seeds path, no
parameters, the stored header set. -/
def genresGetReq (api : String) (hdrs : List (String × String)) : HttpRequest :=
  { url := api ++ "recommendations/available-genre-seeds", data := [], headers := hdrs }

/-- `SpotifyAPI.genres` (src/spotify.py lines 107-118): renewal check, then
GET on the genre-seeds endpoint, returning `r.json()` whatever the status. -/
def SpotifyAPI.genres (self : SpotifyAPI) (envA : HttpRequest → Json)
    (envG : HttpRequest → GetResult) (now : Rat) : StepOut Json :=
  let u := self.update_token envA now
  match u.result with
  | Except.error e => ⟨Except.error e, u.state, u.calls⟩
  | Except.ok _ =>
      match u.state.api_headers with
      | Option.none => ⟨Except.error (PyError.attributeError "api_headers"), u.state, u.calls⟩
      | some hdrs =>
          let req := genresGetReq u.state.urls_api hdrs
          match envG req with
          | GetResult.netError msg =>
              ⟨Except.error (PyError.netError msg), u.state, u.calls ++ [Call.get req]⟩
          | GetResult.response _ body =>
              ⟨Except.ok body, u.state, u.calls ++ [Call.get req]⟩

/-- The GET request `search` sends: api root + "search", `{q, type}` query
parameters, the stored header set. -/
def searchReqOf (api : String) (hdrs : List (String × String)) (q t : String) : HttpRequest :=
  { url := api ++ "search", data := [("q", q), ("type", t)], headers := hdrs }

/-- `SpotifyAPI.search` (src/spotify.py lines 121-132).  Note: the source has
no `update_token` call here; the state is read but never written. -/
def SpotifyAPI.search (self : SpotifyAPI) (envG : HttpRequest → GetResult)
    (q t : String) : StepOut Json :=
  match self.api_headers with
  | Option.none => ⟨Except.error (PyError.attributeError "api_headers"), self, []⟩
  | some hdrs =>
      let req := searchReqOf self.urls_api hdrs q t
      match envG req with
      | GetResult.netError msg =>
          ⟨Except.error (PyError.netError msg), self, [Call.get req]⟩
      | GetResult.response _ body =>
          ⟨Except.ok body, self, [Call.get req]⟩

/-! Helper lemmas: the renewal condition, and how `update_token` behaves on a
stale versus a fresh token.  Used throughout the claim theorems. -/

/-- Over the rationals, `(now - st) / 3600 > 1` says exactly that more than
3600 seconds elapsed. -/
theorem elapsed_iff (x : Rat) : x / 3600 > 1 ↔ x > 3600 := by
  rw [gt_iff_lt, gt_iff_lt, lt_div_iff₀ (by norm_num : (0:Rat) < 3600)]
  norm_num

/-- On a token older than one hour, `update_token` re-runs `__init__` with the
stored credentials. -/
theorem update_token_stale (s : SpotifyAPI) (st : Rat) (envA : HttpRequest → Json)
    (now : Rat) (hs : s.start = some st) (h : now - st > 3600) :
    s.update_token envA now = s.init envA now s.client_id s.client_secret := by
  simp only [SpotifyAPI.update_token, hs]
  rw [if_pos ((elapsed_iff (now - st)).mpr h)]

/-- On a token at most one hour old, `update_token` does nothing: no state
change, no HTTP call. -/
theorem update_token_fresh (s : SpotifyAPI) (st : Rat) (envA : HttpRequest → Json)
    (now : Rat) (hs : s.start = some st) (h : ¬ now - st > 3600) :
    s.update_token envA now = ⟨Except.ok (), s, []⟩ := by
  simp only [SpotifyAPI.update_token, hs]
  rw [if_neg (fun hc => h ((elapsed_iff (now - st)).mp hc))]

/-! Concrete fixtures used by counterexamples and witnesses. -/

/-- A header set as built from a token `"old-token"`. -/
def tokenHeaders : List (String × String) :=
  [("Accept", "application/json"), ("Content-Type", "application/json"),
   ("Authorization", "Bearer old-token")]

/-- An authenticated client whose token was issued at time 0. -/
def client0 : SpotifyAPI :=
  { urls_api := apiRoot, urls_auth := authUrl,
    client_id := PyVal.str "id", client_secret := PyVal.str "secret",
    start := some 0, api_headers := some tokenHeaders, access_token := Option.none }

/-- Authorization endpoint that grants a token `"new-token"`. -/
def envAuthOk : HttpRequest → Json :=
  fun _ => Json.obj [("access_token", Json.str "new-token")]

/-- Authorization endpoint that rejects the client. -/
def envAuthBad : HttpRequest → Json :=
  fun _ => Json.obj [("error", Json.str "invalid_client")]

/-- A genre-list body as the provider would return it. -/
def genresBody : Json := Json.obj [("genres", Json.arr [Json.str "pop", Json.str "rock"])]

/-- API endpoint answering every GET with status 200 and a genre list. -/
def envGetOk : HttpRequest → GetResult :=
  fun _ => GetResult.response 200 genresBody

/-! Claim theorems. -/

/-- C1: the renewal-before-query discipline holds for `genres` but not for
`search`.  At a token issued at time 0 and clock 7201 (older than one hour),
`genres` issues exactly one renewal POST before its GET, while `search` —
whose source contains no `update_token` call — issues its HTTP GET with the
stale token and zero renewal calls, contrary to the claim. -/
theorem C1_search_issues_no_renewal :
    ((7201 : Rat) - 0 > 3600) ∧
    (SpotifyAPI.genres client0 envAuthOk envGetOk 7201).calls =
      [Call.post (authReqP (PyVal.str "id") (PyVal.str "secret")),
       Call.get (genresGetReq apiRoot
         [("Accept", "application/json"), ("Content-Type", "application/json"),
          ("Authorization", "Bearer new-token")])] ∧
    (SpotifyAPI.search client0 envGetOk "Post Malone" "artist").calls =
      [Call.get (searchReqOf apiRoot tokenHeaders "Post Malone" "artist")] := by
  refine ⟨by norm_num, ?_, rfl⟩
  simp only [SpotifyAPI.genres, update_token_stale client0 0 envAuthOk 7201 rfl (by norm_num)]
  rfl

/-- C2: construction with `client_id = None` and a string secret is not
rejected: the guard `type(client_id) != str and type(client_secret) != str`
only fires when BOTH credentials are non-strings, so the object is built
without a `TypeError` and one POST (with Basic auth derived from
`"None:secret"`) is sent to the authorization endpoint, contrary to the
claim that either bad credential fails with no network call. -/
theorem C2_single_bad_credential_not_rejected :
    (SpotifyAPI.new envAuthOk 0 PyVal.none (PyVal.str "secret")).result = Except.ok () ∧
    (SpotifyAPI.new envAuthOk 0 PyVal.none (PyVal.str "secret")).calls =
      [Call.post (authReqP PyVal.none (PyVal.str "secret"))] :=
  ⟨rfl, rfl⟩

/-- C5: `update_token` re-runs the full `__init__` sequence with the stored
credentials exactly when more than 3600 seconds elapsed since the issue
timestamp (the code's test `(now - start) / 3600 > 1`), and otherwise does
nothing — same state, no HTTP call. -/
theorem C5_update_token_policy (s : SpotifyAPI) (st : Rat)
    (envA : HttpRequest → Json) (now : Rat) (hs : s.start = some st) :
    (now - st > 3600 →
      s.update_token envA now = s.init envA now s.client_id s.client_secret) ∧
    (¬ now - st > 3600 →
      s.update_token envA now = ⟨Except.ok (), s, []⟩) :=
  ⟨fun h => update_token_stale s st envA now hs h,
   fun h => update_token_fresh s st envA now hs h⟩

/-- Witness for C5 at a concrete client: stale at clock 7201, fresh at
clock 10. -/
theorem C5_update_token_policy_witness :
    SpotifyAPI.update_token client0 envAuthOk 7201 =
      SpotifyAPI.init client0 envAuthOk 7201 (PyVal.str "id") (PyVal.str "secret") ∧
    SpotifyAPI.update_token client0 envAuthOk 10 = ⟨Except.ok (), client0, []⟩ :=
  ⟨(C5_update_token_policy client0 0 envAuthOk 7201 rfl).1 (by norm_num),
   (C5_update_token_policy client0 0 envAuthOk 10 rfl).2 (by norm_num)⟩

/-- C3: when the authorization response contains no access-token field (and
carries a provider error message), the constructed object has no header set
and no issue timestamp, and both query operations on it fail — `genres`
raises on the missing `start` attribute, `search` on the missing
`api_headers` attribute (the concrete Python exception the spec's
`AuthenticationError` stands for) — rather than silently succeeding. -/
theorem C3_auth_failure_leaves_unauthenticated (cid : String) (csec : PyVal)
    (envA : HttpRequest → Json) (now : Rat) (errv : Json)
    (hA : ∀ r, jsonLookup "access_token" (envA r) = Option.none)
    (hE : ∀ r, jsonLookup "error" (envA r) = some errv) :
    (SpotifyAPI.new envA now (PyVal.str cid) csec).state.api_headers = Option.none ∧
    (SpotifyAPI.new envA now (PyVal.str cid) csec).state.start = Option.none ∧
    (∀ envA2 envG now2,
      (SpotifyAPI.genres (SpotifyAPI.new envA now (PyVal.str cid) csec).state
          envA2 envG now2).result = Except.error (PyError.attributeError "start")) ∧
    (∀ envG q t,
      (SpotifyAPI.search (SpotifyAPI.new envA now (PyVal.str cid) csec).state
          envG q t).result = Except.error (PyError.attributeError "api_headers")) := by
  have hnew : SpotifyAPI.new envA now (PyVal.str cid) csec =
      ⟨Except.ok (),
       { SpotifyAPI.blank with urls_api := apiRoot, urls_auth := authUrl,
                               client_id := PyVal.str cid, client_secret := csec,
                               access_token := some 0 },
       [Call.post (authReqP (PyVal.str cid) csec)]⟩ := by
    simp only [SpotifyAPI.new, SpotifyAPI.init, PyVal.isStr, Bool.not_true, Bool.false_and,
      Bool.false_eq_true, if_false, hA, hE]
  rw [hnew]
  exact ⟨rfl, rfl, fun _ _ _ => rfl, fun _ _ _ => rfl⟩

/-- Witness for C3: the mock endpoint answering `{"error": "invalid_client"}`
leaves no headers, and both queries then fail with attribute errors. -/
theorem C3_auth_failure_witness :
    (SpotifyAPI.new envAuthBad 0 (PyVal.str "id") (PyVal.str "secret")).state.api_headers
        = Option.none ∧
    (SpotifyAPI.genres
        (SpotifyAPI.new envAuthBad 0 (PyVal.str "id") (PyVal.str "secret")).state
        envAuthBad envGetOk 1).result = Except.error (PyError.attributeError "start") ∧
    (SpotifyAPI.search
        (SpotifyAPI.new envAuthBad 0 (PyVal.str "id") (PyVal.str "secret")).state
        envGetOk "Post Malone" "artist").result
      = Except.error (PyError.attributeError "api_headers") :=
  ⟨(C3_auth_failure_leaves_unauthenticated "id" (PyVal.str "secret") envAuthBad 0
      (Json.str "invalid_client") (fun _ => rfl) (fun _ => rfl)).1,
   (C3_auth_failure_leaves_unauthenticated "id" (PyVal.str "secret") envAuthBad 0
      (Json.str "invalid_client") (fun _ => rfl) (fun _ => rfl)).2.2.1 envAuthBad envGetOk 1,
   (C3_auth_failure_leaves_unauthenticated "id" (PyVal.str "secret") envAuthBad 0
      (Json.str "invalid_client") (fun _ => rfl) (fun _ => rfl)).2.2.2 envGetOk "Post Malone" "artist"⟩

/-- API endpoint answering every GET with HTTP 500 and a JSON error body. -/
def envGet500 : HttpRequest → GetResult :=
  fun _ => GetResult.response 500 (Json.obj [("error", Json.str "server error")])

/-- API endpoint failing every GET at the network level. -/
def envGetNet : HttpRequest → GetResult :=
  fun _ => GetResult.netError "connection refused"

/-- Counterexample to C4: a 500 response with a JSON error body is NOT
propagated as an error — `genres` returns `r.json()` of the error body as
its ordinary successful result, because the code never inspects the status
and never raises on non-2xx. -/
theorem C4_counterexample_500_returned_ok :
    (SpotifyAPI.genres client0 envAuthOk envGet500 10).result =
      Except.ok (Json.obj [("error", Json.str "server error")]) := by
  simp only [SpotifyAPI.genres, update_token_fresh client0 0 envAuthOk 10 rfl (by norm_num)]
  rfl

/-- C4 (amended): a network-level failure propagates to the caller as an
error and the operation performs no retry (exactly one GET is attempted);
a non-2xx HTTP response, however, is not raised — its parsed JSON body is
returned as the operation's ordinary result, with the status discarded. -/
theorem C4_network_error_propagates_no_retry (s : SpotifyAPI) (st : Rat)
    (hdrs : List (String × String)) (now : Rat) (envA : HttpRequest → Json)
    (envG : HttpRequest → GetResult)
    (hs : s.start = some st) (hfresh : ¬ now - st > 3600) (hh : s.api_headers = some hdrs) :
    (∀ msg, envG (genresGetReq s.urls_api hdrs) = GetResult.netError msg →
      (s.genres envA envG now).result = Except.error (PyError.netError msg) ∧
      (s.genres envA envG now).calls = [Call.get (genresGetReq s.urls_api hdrs)]) ∧
    (∀ st2 body, envG (genresGetReq s.urls_api hdrs) = GetResult.response st2 body →
      (s.genres envA envG now).result = Except.ok body) ∧
    (∀ q t msg, envG (searchReqOf s.urls_api hdrs q t) = GetResult.netError msg →
      (s.search envG q t).result = Except.error (PyError.netError msg) ∧
      (s.search envG q t).calls = [Call.get (searchReqOf s.urls_api hdrs q t)]) ∧
    (∀ q t st2 body, envG (searchReqOf s.urls_api hdrs q t) = GetResult.response st2 body →
      (s.search envG q t).result = Except.ok body) := by
  have hu := update_token_fresh s st envA now hs hfresh
  refine ⟨fun msg hg => ?_, fun st2 body hg => ?_, fun q t msg hg => ?_,
          fun q t st2 body hg => ?_⟩
  · simp only [SpotifyAPI.genres, hu, hh, hg]
    exact ⟨by trivial, by trivial⟩
  · simp only [SpotifyAPI.genres, hu, hh, hg]
  · simp only [SpotifyAPI.search, hh, hg]
    exact ⟨by trivial, by trivial⟩
  · simp only [SpotifyAPI.search, hh, hg]

/-- Witness for C4 (amended): a network failure on `genres` surfaces as the
propagated error with a single GET attempted; a 500-status search response
is returned as the ordinary result. -/
theorem C4_network_error_witness :
    (SpotifyAPI.genres client0 envAuthOk envGetNet 10).result =
      Except.error (PyError.netError "connection refused") ∧
    (SpotifyAPI.genres client0 envAuthOk envGetNet 10).calls =
      [Call.get (genresGetReq apiRoot tokenHeaders)] ∧
    (SpotifyAPI.search client0 envGet500 "Post Malone" "artist").result =
      Except.ok (Json.obj [("error", Json.str "server error")]) :=
  ⟨((C4_network_error_propagates_no_retry client0 0 tokenHeaders 10 envAuthOk envGetNet
      rfl (by norm_num) rfl).1 "connection refused" rfl).1,
   ((C4_network_error_propagates_no_retry client0 0 tokenHeaders 10 envAuthOk envGetNet
      rfl (by norm_num) rfl).1 "connection refused" rfl).2,
   (C4_network_error_propagates_no_retry client0 0 tokenHeaders 10 envAuthOk envGet500
      rfl (by norm_num) rfl).2.2.2 "Post Malone" "artist" 500
      (Json.obj [("error", Json.str "server error")]) rfl⟩

/-- C6: construction with string credentials sends exactly one POST to the
authorization endpoint, whose Authorization header is `"Basic "` followed by
the base64 of `identifier:secret` and whose body is
`grant_type=client_credentials`; when the response carries an `access_token`
field, the issue time is recorded as `now` and the reusable header set
(Accept/Content-Type `application/json`, `"Bearer "` + token) is built. -/
theorem C6_construction_contract (cid csec : String) (envA : HttpRequest → Json)
    (now : Rat) :
    (SpotifyAPI.new envA now (PyVal.str cid) (PyVal.str csec)).calls =
      [Call.post (authReqP (PyVal.str cid) (PyVal.str csec))] ∧
    authReqP (PyVal.str cid) (PyVal.str csec) =
      { url := authUrl
        data := [("grant_type", "client_credentials")]
        headers := [("Authorization",
          "Basic " ++ b64encode (strBytes (cid ++ ":" ++ csec)))] } ∧
    (∀ tok, jsonLookup "access_token" (envA (authReqP (PyVal.str cid) (PyVal.str csec)))
        = some (Json.str tok) →
      (SpotifyAPI.new envA now (PyVal.str cid) (PyVal.str csec)).state.start = some now ∧
      (SpotifyAPI.new envA now (PyVal.str cid) (PyVal.str csec)).state.api_headers =
        some [("Accept", "application/json"), ("Content-Type", "application/json"),
              ("Authorization", "Bearer " ++ tok)]) := by
  refine ⟨?_, ?_, fun tok htok => ?_⟩
  · simp only [SpotifyAPI.new, SpotifyAPI.init, PyVal.isStr, Bool.not_true, Bool.false_and,
      Bool.false_eq_true, if_false]
    cases hj : jsonLookup "access_token" (envA (authReqP (PyVal.str cid) (PyVal.str csec))) with
    | none =>
        cases he : jsonLookup "error" (envA (authReqP (PyVal.str cid) (PyVal.str csec))) with
        | none => rfl
        | some e => rfl
    | some j => cases j <;> rfl
  · simp [authReqP, PyVal.pyStr]
  · simp only [SpotifyAPI.new, SpotifyAPI.init, PyVal.isStr, Bool.not_true, Bool.false_and,
      Bool.false_eq_true, if_false, htok]
    exact ⟨by trivial, by trivial⟩

/-- Witness for C6 at concrete credentials and a granting endpoint. -/
theorem C6_construction_witness :
    (SpotifyAPI.new envAuthOk 0 (PyVal.str "id") (PyVal.str "secret")).state.start = some 0 ∧
    (SpotifyAPI.new envAuthOk 0 (PyVal.str "id") (PyVal.str "secret")).state.api_headers =
      some [("Accept", "application/json"), ("Content-Type", "application/json"),
            ("Authorization", "Bearer new-token")] :=
  (C6_construction_contract "id" "secret" envAuthOk 0).2.2 "new-token" rfl

/-- C7: on an authenticated client with a fresh token, `genres` issues one
HTTP GET to `{api_root}recommendations/available-genre-seeds` with the
stored authorization headers attached and returns the response body
unchanged, leaving the state as it was. -/
theorem C7_genres_contract (s : SpotifyAPI) (st : Rat) (hdrs : List (String × String))
    (now : Rat) (envA : HttpRequest → Json) (envG : HttpRequest → GetResult)
    (st2 : Nat) (body : Json)
    (hs : s.start = some st) (hfresh : ¬ now - st > 3600) (hh : s.api_headers = some hdrs)
    (hg : envG (genresGetReq s.urls_api hdrs) = GetResult.response st2 body) :
    s.genres envA envG now =
      ⟨Except.ok body, s, [Call.get (genresGetReq s.urls_api hdrs)]⟩ ∧
    genresGetReq s.urls_api hdrs =
      { url := s.urls_api ++ "recommendations/available-genre-seeds", data := [],
        headers := hdrs } := by
  constructor
  · simp only [SpotifyAPI.genres, update_token_fresh s st envA now hs hfresh, hh, hg,
      List.nil_append]
  · rfl

/-- Witness for C7: the mock genre endpoint's body comes back unchanged. -/
theorem C7_genres_witness :
    SpotifyAPI.genres client0 envAuthOk envGetOk 10 =
      ⟨Except.ok genresBody, client0, [Call.get (genresGetReq apiRoot tokenHeaders)]⟩ :=
  (C7_genres_contract client0 0 tokenHeaders 10 envAuthOk envGetOk 200 genresBody
    rfl (by norm_num) rfl rfl).1

/-- C8: for every query string and every type string — including values
outside the provider's allowed set, which the client does not validate —
`search` issues one HTTP GET to `{api_root}search` with query parameters
`q` and `type` and the stored authorization headers, and returns the
response body unmodified. -/
theorem C8_search_contract (s : SpotifyAPI) (hdrs : List (String × String))
    (envG : HttpRequest → GetResult) (q t : String) (st2 : Nat) (body : Json)
    (hh : s.api_headers = some hdrs)
    (hg : envG (searchReqOf s.urls_api hdrs q t) = GetResult.response st2 body) :
    s.search envG q t =
      ⟨Except.ok body, s, [Call.get (searchReqOf s.urls_api hdrs q t)]⟩ ∧
    searchReqOf s.urls_api hdrs q t =
      { url := s.urls_api ++ "search", data := [("q", q), ("type", t)],
        headers := hdrs } := by
  constructor
  · simp only [SpotifyAPI.search, hh, hg]
  · rfl

/-- Witness for C8, with a `type` value outside the allowed set passed
through untouched. -/
theorem C8_search_witness :
    SpotifyAPI.search client0 envGetOk "Post Malone" "not-a-real-type" =
      ⟨Except.ok genresBody, client0,
       [Call.get (searchReqOf apiRoot tokenHeaders "Post Malone" "not-a-real-type")]⟩ :=
  (C8_search_contract client0 tokenHeaders envGetOk "Post Malone" "not-a-real-type"
    200 genresBody rfl rfl).1

/-- One client-facing operation together with the environment it runs in:
a `genres` query, a `search` query, or a bare renewal check. -/
inductive ClientOp where
  | genresOp (envA : HttpRequest → Json) (envG : HttpRequest → GetResult) (now : Rat)
  | searchOp (envG : HttpRequest → GetResult) (q t : String)
  | updateOp (envA : HttpRequest → Json) (now : Rat)

/-- The state of the object after one operation (whether or not the
operation raised). -/
def runOp (s : SpotifyAPI) : ClientOp → SpotifyAPI
  | ClientOp.genresOp envA envG now => (s.genres envA envG now).state
  | ClientOp.searchOp envG q t => (s.search envG q t).state
  | ClientOp.updateOp envA now => (s.update_token envA now).state

/-- The state after a whole sequence of operations. -/
def runOps (s : SpotifyAPI) (ops : List ClientOp) : SpotifyAPI :=
  ops.foldl runOp s

/-- Re-running `__init__` with the stored credentials never changes them. -/
theorem init_self_creds (self : SpotifyAPI) (envA : HttpRequest → Json) (now : Rat) :
    (self.init envA now self.client_id self.client_secret).state.client_id
        = self.client_id ∧
    (self.init envA now self.client_id self.client_secret).state.client_secret
        = self.client_secret := by
  unfold SpotifyAPI.init
  split
  · exact ⟨rfl, rfl⟩
  · dsimp only
    split
    · exact ⟨rfl, rfl⟩
    · exact ⟨rfl, rfl⟩
    · split
      · exact ⟨rfl, rfl⟩
      · exact ⟨rfl, rfl⟩

/-- `update_token` never changes the stored credentials. -/
theorem update_token_creds (s : SpotifyAPI) (envA : HttpRequest → Json) (now : Rat) :
    (s.update_token envA now).state.client_id = s.client_id ∧
    (s.update_token envA now).state.client_secret = s.client_secret := by
  unfold SpotifyAPI.update_token
  split
  · exact ⟨rfl, rfl⟩
  · split
    · exact init_self_creds s envA now
    · exact ⟨rfl, rfl⟩

/-- `genres` leaves the state exactly where `update_token` left it. -/
theorem genres_state_eq (s : SpotifyAPI) (envA : HttpRequest → Json)
    (envG : HttpRequest → GetResult) (now : Rat) :
    (s.genres envA envG now).state = (s.update_token envA now).state := by
  unfold SpotifyAPI.genres
  dsimp only
  split
  · rfl
  · split
    · rfl
    · split <;> rfl

/-- `search` never changes the state. -/
theorem search_state_eq (s : SpotifyAPI) (envG : HttpRequest → GetResult)
    (q t : String) : (s.search envG q t).state = s := by
  unfold SpotifyAPI.search
  split
  · rfl
  · dsimp only
    split <;> rfl

/-- Any single operation preserves the stored credentials. -/
theorem runOp_creds (s : SpotifyAPI) (op : ClientOp) :
    (runOp s op).client_id = s.client_id ∧
    (runOp s op).client_secret = s.client_secret := by
  cases op with
  | genresOp envA envG now =>
      simp only [runOp]
      rw [genres_state_eq]
      exact update_token_creds s envA now
  | searchOp envG q t =>
      simp only [runOp, search_state_eq]
      exact ⟨by trivial, by trivial⟩
  | updateOp envA now =>
      simp only [runOp]
      exact update_token_creds s envA now

/-- C9: across every sequence of operations, the stored client identifier
and secret stay equal to the values held at the start; and every renewal
POST that `update_token` ever issues carries the Basic authorization built
from exactly those stored credentials. -/
theorem C9_credentials_immutable :
    (∀ (s : SpotifyAPI) (ops : List ClientOp),
      (runOps s ops).client_id = s.client_id ∧
      (runOps s ops).client_secret = s.client_secret) ∧
    (∀ (s : SpotifyAPI) (envA : HttpRequest → Json) (now : Rat) (req : HttpRequest),
      Call.post req ∈ (s.update_token envA now).calls →
      req = authReqP s.client_id s.client_secret) := by
  constructor
  · intro s ops
    induction ops generalizing s with
    | nil => exact ⟨rfl, rfl⟩
    | cons op rest ih =>
        have h1 := runOp_creds s op
        have h2 := ih (runOp s op)
        exact ⟨h2.1.trans h1.1, h2.2.trans h1.2⟩
  · intro s envA now req hmem
    unfold SpotifyAPI.update_token at hmem
    split at hmem
    · simp at hmem
    · split at hmem
      · unfold SpotifyAPI.init at hmem
        split at hmem
        · simp at hmem
        · dsimp only at hmem
          split at hmem
          · rw [List.mem_singleton] at hmem
            injection hmem with h
          · rw [List.mem_singleton] at hmem
            injection hmem with h
          · split at hmem <;>
            · rw [List.mem_singleton] at hmem
              injection hmem with h
      · simp at hmem

/-- Witness for C9: a concrete run (renewal then search), and the renewal
POST observed during a stale `update_token` call on `client0`. -/
theorem C9_credentials_witness :
    (runOps client0 [ClientOp.updateOp envAuthOk 7201,
                     ClientOp.searchOp envGetOk "Post Malone" "artist"]).client_id
        = client0.client_id ∧
    authReqP (PyVal.str "id") (PyVal.str "secret")
        = authReqP client0.client_id client0.client_secret :=
  ⟨(C9_credentials_immutable.1 client0
      [ClientOp.updateOp envAuthOk 7201,
       ClientOp.searchOp envGetOk "Post Malone" "artist"]).1,
   C9_credentials_immutable.2 client0 envAuthOk 7201
     (authReqP (PyVal.str "id") (PyVal.str "secret"))
     (by
        rw [update_token_stale client0 0 envAuthOk 7201 rfl (by norm_num)]
        exact List.mem_singleton.mpr rfl)⟩

/-- C10 (implicit behavior): on an authenticated client whose token is older
than one hour, a renewal whose authorization response lacks an access-token
field (but carries an error message) leaves the previously built header set
and the old issue timestamp in place, and `genres` then issues its GET with
those stale headers and returns the body as a success — no authentication
error is raised. -/
theorem C10_failed_renewal_keeps_old_headers (s : SpotifyAPI) (st : Rat)
    (hdrs : List (String × String)) (now : Rat) (envA : HttpRequest → Json)
    (envG : HttpRequest → GetResult) (st2 : Nat) (body : Json) (errv : Json)
    (hs : s.start = some st) (hstale : now - st > 3600) (hh : s.api_headers = some hdrs)
    (hcid : s.client_id.isStr = true)
    (hA : jsonLookup "access_token" (envA (authReqP s.client_id s.client_secret))
        = Option.none)
    (hE : jsonLookup "error" (envA (authReqP s.client_id s.client_secret)) = some errv)
    (hg : envG (genresGetReq apiRoot hdrs) = GetResult.response st2 body) :
    (s.genres envA envG now).result = Except.ok body ∧
    (s.genres envA envG now).state.api_headers = some hdrs ∧
    (s.genres envA envG now).state.start = some st ∧
    (s.genres envA envG now).calls =
      [Call.post (authReqP s.client_id s.client_secret),
       Call.get (genresGetReq apiRoot hdrs)] := by
  have hu := update_token_stale s st envA now hs hstale
  simp only [SpotifyAPI.genres, hu, SpotifyAPI.init, hcid, Bool.not_true, Bool.false_and,
    Bool.false_eq_true, if_false, hA, hE, hh, hs, hg, List.cons_append, List.nil_append]
  exact ⟨by trivial, by trivial, by trivial, by trivial⟩

/-- Witness for C10: `client0` with a stale token, the rejecting auth
endpoint and the genre mock — old bearer headers stay, the query succeeds. -/
theorem C10_failed_renewal_witness :
    (SpotifyAPI.genres client0 envAuthBad envGetOk 7201).result = Except.ok genresBody ∧
    (SpotifyAPI.genres client0 envAuthBad envGetOk 7201).state.api_headers
        = some tokenHeaders ∧
    (SpotifyAPI.genres client0 envAuthBad envGetOk 7201).state.start = some 0 ∧
    (SpotifyAPI.genres client0 envAuthBad envGetOk 7201).calls =
      [Call.post (authReqP (PyVal.str "id") (PyVal.str "secret")),
       Call.get (genresGetReq apiRoot tokenHeaders)] :=
  C10_failed_renewal_keeps_old_headers client0 0 tokenHeaders 7201 envAuthBad envGetOk
    200 genresBody (Json.str "invalid_client") rfl (by norm_num) rfl rfl rfl rfl rfl
